import Mathlib

/-!
Verification development for the register model and register cache of the
givenergy-modbus-async repository (files `model/register.py` and
`model/register_cache.py`).  Python code is shallowly embedded: machine
integers become `Nat`/`Int` with explicit bounds, floats become `ℚ`,
fallible code returns `Except PyErr`, and the mutable `dict` underlying
`RegisterCache` becomes an association list passed explicitly.
-/

/-- Python exception values raised by the embedded code.  Each constructor
carries the interpreter message (as a character list) where the message is
observable. -/
inductive PyErr where
  | typeError (msg : List Char)
  | valueError (msg : List Char)
  | keyError (key : List Char)
  | overflowError (msg : List Char)
  | unicodeDecodeError (msg : List Char)
deriving DecidableEq

/-- Values produced by `Type.render`: Python bool, int/float (modelled
exactly as `ℚ`), or str. -/
inductive PyValue where
  | bool (b : Bool)
  | num (q : ℚ)
  | str (s : List Char)
deriving DecidableEq

/-- Embeds `class Type(Enum)` from `model/register.py` (named `Type'`
because `Type` is a Lean keyword). -/
inductive Type' where
  | BOOL
  | WORD
  | DWORD_HIGH
  | DWORD_LOW
  | SWORD
  | ASCII
deriving DecidableEq

/-- Embeds `class Scaling(Enum)` from `model/register.py`. -/
inductive Scaling where
  | UNIT
  | DECI
  | CENTI
deriving DecidableEq

/-- The `value` attribute of each `Scaling` member (1, 0.1, 0.01), with the
Python floats 0.1 and 0.01 modelled as exact rationals. -/
def Scaling.value : Scaling → ℚ
  | .UNIT => 1
  | .DECI => 1 / 10
  | .CENTI => 1 / 100

/-- Embeds `Type.render(self, value, scaling)` from `model/register.py`.
The branches appear in source order (DWORD_HIGH, SWORD, ASCII, BOOL, then
the fall-through for WORD and DWORD_LOW).  `value.to_bytes(2, 'big')`
raises `OverflowError` when the value does not fit two bytes, and
`.decode('ascii')` raises `UnicodeDecodeError` when a byte is not in
`range(128)`; both are embedded as `Except` errors. -/
def Type'.render (t : Type') (value : Nat) (scaling : ℚ) : Except PyErr PyValue :=
  match t with
  | .DWORD_HIGH =>
      .ok (.num (((value <<< 16 : Nat) : ℚ) * scaling))
  | .SWORD =>
      let sv : ℤ := if value &&& (1 <<< 15) ≠ 0 then (value : ℤ) - (1 <<< 16) else (value : ℤ)
      .ok (.num ((sv : ℚ) * scaling))
  | .ASCII =>
      if value < 65536 then
        let b1 := value / 256
        let b0 := value % 256
        if b1 < 128 ∧ b0 < 128 then
          .ok (.str [Char.ofNat b1, Char.ofNat b0])
        else
          .error (.unicodeDecodeError ("ordinal not in range(128)".data))
      else
        .error (.overflowError ("int too big to convert".data))
  | .BOOL =>
      .ok (.bool (value &&& 1 != 0))
  | _ =>
      .ok (.num ((value : ℚ) * scaling))

/-- Modelled from the spec: the `Register` identity classes `HR` and `IR`
imported by `register_cache.py` are not under `src/`; per the spec a
register identity is a bank (`Holding` abbreviated `HR`, `Input`
abbreviated `IR`) together with a numeric offset. -/
inductive Register where
  | HR (n : Nat)
  | IR (n : Nat)
deriving DecidableEq

/-- Character for a digit value, as Python's lowercase decimal/hex digits. -/
def digitChar (d : Nat) : Char :=
  match d with
  | 0 => '0' | 1 => '1' | 2 => '2' | 3 => '3' | 4 => '4'
  | 5 => '5' | 6 => '6' | 7 => '7' | 8 => '8' | 9 => '9'
  | 10 => 'a' | 11 => 'b' | 12 => 'c' | 13 => 'd' | 14 => 'e'
  | _ => 'f'

/-- Digits of `n` in base `b`, most significant first, empty for 0; the
first argument is structural fuel (`n` itself always suffices since
`n / b < n` for `n > 0`, `b ≥ 2`). -/
def printNatBase (b : Nat) : Nat → Nat → List Char
  | 0, _ => []
  | fuel + 1, n => if n = 0 then [] else printNatBase b fuel (n / b) ++ [digitChar (n % b)]

/-- Decimal rendering of a natural number, as Python `str(n)`. -/
def printNat (n : Nat) : List Char :=
  if n = 0 then ['0'] else printNatBase 10 n n

/-- Hexadecimal rendering padded to four digits, as the Python format
`f"\x7bn:04x\x7d"` used by `to_hex_string`. -/
def hex4 (n : Nat) : List Char :=
  let ds := if n = 0 then ['0'] else printNatBase 16 n n
  List.replicate (4 - ds.length) '0' ++ ds

/-- Modelled from the spec: `Register.__str__`, the canonical textual key
form `HR(n)` / `IR(n)` used when the cache is serialized (the class is not
under `src/`). -/
def regStr : Register → List Char
  | .HR n => 'H' :: 'R' :: '(' :: (printNat n ++ [')'])
  | .IR n => 'I' :: 'R' :: '(' :: (printNat n ++ [')'])

/-- The cache's underlying mapping: an association list from register
identity to stored value, where `none` is Python `None` (the defaultdict
null marker) and `some n` a stored integer raw word.  A key absent from
the list is an identity never touched. -/
abbrev Cache : Type := List (Register × Option Nat)

/-- First-match association lookup: `none` means the key is absent from
the dict, `some v` that it is mapped to stored value `v`. -/
def lookupReg : Cache → Register → Option (Option Nat)
  | [], _ => none
  | (r', v) :: rest, r => if r' = r then some v else lookupReg rest r

/-- The value the expression `self[r]` evaluates to: the stored value for
a present key, and Python `None` (freshly inserted by the defaultdict) for
an absent one.  The insertion side effect itself is embedded by
`RegisterCache.getItem` below. -/
def subVal (c : Cache) (r : Register) : Option Nat :=
  match lookupReg c r with
  | some v => v
  | none => none

/-- The value of `self.get(r, dflt)` (plain `dict.get`, no insertion):
the stored value when the key is present, else the default. -/
def dictGetD (c : Cache) (r : Register) (dflt : Option Nat) : Option Nat :=
  match lookupReg c r with
  | some v => v
  | none => dflt

namespace RegisterCache

/-- Embeds defaultdict `__getitem__` with `default_factory = lambda: None`
(`RegisterCache.__init__`): a present key returns its stored value and
leaves the dict unchanged; a missing key inserts the null marker and
returns it.  Returns the evaluated value together with the updated dict. -/
def getItem (c : Cache) (r : Register) : Option Nat × Cache :=
  match lookupReg c r with
  | some v => (v, c)
  | none => (none, c ++ [(r, none)])

/-- Embeds `RegisterCache.to_uint32`: `(self[high_register] << 16) +
self[low_register]`.  A `None` operand raises the interpreter's
`TypeError` (the left shift is evaluated first, so a missing high register
raises the shift message). -/
def to_uint32 (c : Cache) (high_register low_register : Register) : Except PyErr Nat :=
  match subVal c high_register with
  | none => .error (.typeError ("unsupported operand type(s) for <<: 'NoneType' and 'int'".data))
  | some hv =>
      match subVal c low_register with
      | none => .error (.typeError ("unsupported operand type(s) for +: 'int' and 'NoneType'".data))
      | some lv => .ok ((hv <<< 16) + lv)

/-- Embeds the list comprehension `[f"\x7bself[r]:04x\x7d" for r in registers]`
of `to_hex_string`: formatting `None` raises `TypeError`. -/
def formatRegs (c : Cache) : List Register → Except PyErr (List (List Char))
  | [] => .ok []
  | r :: rest =>
      match subVal c r with
      | none => .error (.typeError ("unsupported format string passed to NoneType.__format__".data))
      | some n => do
          let tail ← formatRegs c rest
          .ok (hex4 n :: tail)

/-- Embeds `RegisterCache.to_hex_string`.  The guard `if all(values)`
tests the formatted strings for truthiness (non-emptiness); the second
loop of the source recomputes the same formats, embedded here as the
concatenation of `values`. -/
def to_hex_string (c : Cache) (registers : List Register) : Except PyErr (List Char) := do
  let values ← formatRegs c registers
  if values.all (fun s => !s.isEmpty) then
    .ok (((values.flatten).filter Char.isAlphanum).map Char.toUpper)
  else
    .ok []

end RegisterCache

/-- Leap-year test of the proleptic Gregorian calendar used by Python
`datetime`. -/
def isLeap (y : Nat) : Bool :=
  (y % 4 = 0 && y % 100 != 0) || y % 400 = 0

/-- Days in a month, as `datetime`'s `_days_in_month`. -/
def daysInMonth (y m : Nat) : Nat :=
  if m = 2 then (if isLeap y then 29 else 28)
  else if m = 4 ∨ m = 6 ∨ m = 9 ∨ m = 11 then 30
  else 31

/-- A constructed `datetime.datetime` value (date and time fields only;
the code never uses microseconds or timezones). -/
structure PyDatetime where
  year : Nat
  month : Nat
  day : Nat
  hour : Nat
  minute : Nat
  second : Nat
deriving DecidableEq

/-- Embeds the `datetime.datetime(...)` constructor: field validation in
CPython's order (year, month, day, then time fields), raising `ValueError`
with the interpreter's message on the first failing check. -/
def pyDatetime (y m d h mi s : Nat) : Except PyErr PyDatetime :=
  if 1 ≤ y ∧ y ≤ 9999 then
    if 1 ≤ m ∧ m ≤ 12 then
      if 1 ≤ d ∧ d ≤ daysInMonth y m then
        if h ≤ 23 then
          if mi ≤ 59 then
            if s ≤ 59 then
              .ok ⟨y, m, d, h, mi, s⟩
            else .error (.valueError ("second must be in 0..59".data))
          else .error (.valueError ("minute must be in 0..59".data))
        else .error (.valueError ("hour must be in 0..23".data))
      else .error (.valueError ("day is out of range for month".data))
    else .error (.valueError ("month must be in 1..12".data))
  else .error (.valueError ("year is out of range".data))

namespace RegisterCache

/-- Embeds `RegisterCache.to_datetime`.  The `try` branch evaluates
`datetime.datetime(self[y] + 2000, self.get(m, 1), self.get(d, 1),
self[h], self[min], self[s])`; any `None` among the arguments raises
`TypeError` and out-of-range fields raise `ValueError`, all caught by the
bare `except`, whose handler evaluates `datetime.datetime(2000, 0, 0, 0,
0, 0)`.  Subscript insertion side effects do not change any evaluated
value and are embedded separately by `getItem`. -/
def to_datetime (c : Cache) (y m d h min s : Register) : Except PyErr PyDatetime :=
  let attempt : Except PyErr PyDatetime :=
    match subVal c y, dictGetD c m (some 1), dictGetD c d (some 1),
          subVal c h, subVal c min, subVal c s with
    | some yv, some mv, some dv, some hv, some miv, some sv =>
        pyDatetime (yv + 2000) mv dv hv miv sv
    | _, _, _, _, _, _ =>
        .error (.typeError ("unsupported operand type(s) for +: 'NoneType' and 'int'".data))
  match attempt with
  | .ok dt => .ok dt
  | .error _ => pyDatetime 2000 0 0 0 0 0

end RegisterCache

/-- Index of the first occurrence of `sep`, or `-1`, as Python
`str.find`. -/
def pyFind (k : List Char) (sep : Char) : Int :=
  match k.findIdx? (· = sep) with
  | some i => (i : Int)
  | none => -1

/-- Split at the first occurrence of `sep` (removed), as Python
`str.split(sep, maxsplit=1)` when `sep` occurs. -/
def pySplitOnce : List Char → Char → List Char × List Char
  | [], _ => ([], [])
  | c :: rest, sep =>
      if c = sep then ([], rest)
      else
        let p := pySplitOnce rest sep
        (c :: p.1, p.2)

/-- Embeds Python `int(s)` on the strings arising in this development: a
non-empty all-digit string parses to its decimal value, anything else
raises `ValueError` (modelled as `none`; `int()` additionally tolerates
signs and surrounding whitespace, which no key here contains). -/
def parseDigits (cs : List Char) : Option Nat :=
  if !cs.isEmpty && cs.all Char.isDigit then
    some (cs.foldl (fun a c => a * 10 + (c.toNat - 48)) 0)
  else
    none

/-- Python dict assignment `d[k] = v` on an association list: overwrite in
place when the key is present (keeping its position), else append. -/
def dinsert : Cache → Register → Option Nat → Cache
  | [], r, v => [(r, v)]
  | (r', v') :: rest, r, v =>
      if r' = r then (r', v) :: rest else (r', v') :: dinsert rest r v

namespace RegisterCache

/-- The loop body of `register_object_hook` inside
`RegisterCache.from_json`, iterating over the parsed object's entries with
the accumulating dict `ret`.  Per entry: locate a `(` wrapper (dropping
the trailing character of the remainder) or a `:` separator, else raise
`ValueError`; then `lookup[reg]` — a `KeyError` escapes and fails the
whole parse since only `ValueError` is caught; then `int(idx)` — its
`ValueError` is caught and the entry silently discarded. -/
def hookAux : List (List Char × Option Nat) → Cache → Except PyErr Cache
  | [], acc => .ok acc
  | (k, v) :: rest, acc =>
      let parts : Except PyErr (List Char × List Char) :=
        if pyFind k '(' > 0 then
          let p := pySplitOnce k '('
          .ok (p.1, p.2.dropLast)
        else if pyFind k ':' > 0 then
          .ok (pySplitOnce k ':')
        else
          .error (.valueError (k ++ " is not a valid Register type".data))
      match parts with
      | .error e => .error e
      | .ok (reg, idx) =>
          let bank : Except PyErr (Nat → Register) :=
            if reg = "HR".data then .ok Register.HR
            else if reg = "IR".data then .ok Register.IR
            else .error (.keyError reg)
          match bank with
          | .error e => .error e
          | .ok mk =>
              match parseDigits idx with
              | none => hookAux rest acc
              | some n => hookAux rest (dinsert acc (mk n) v)

/-- Embeds `register_object_hook` applied to the whole parsed object
(Python iterates the entries in order into a fresh dict `ret`). -/
def register_object_hook (entries : List (List Char × Option Nat)) : Except PyErr Cache :=
  hookAux entries []

/-- Embeds `RegisterCache.from_json`: the textual JSON layer
(`json.loads`) is modelled as the identity on the string-keyed object, so
deserialization is the object hook followed by the `RegisterCache`
constructor (which stores the resulting pairs verbatim). -/
def from_json (entries : List (List Char × Option Nat)) : Except PyErr Cache :=
  register_object_hook entries

/-- Embeds `RegisterCache.json` (`json.dumps(self)`): the object whose
keys are the canonical textual form of each stored identity and whose
values are the stored values (`None` serializing to `null`), in dict
order.  The key rendering `regStr` is modelled from the spec since
`Register.__str__` is not under `src/`. -/
def json (c : Cache) : List (List Char × Option Nat) :=
  c.map (fun p => (regStr p.1, p.2))

end RegisterCache
/-- One entry of a static register definition table: enum member name,
offset, data type and scaling factor. -/
structure RegDef where
  name : String
  offset : Nat
  rtype : Type'
  scaling : Scaling
deriving DecidableEq

/-- Embeds the `HoldingRegister` definition table of `model/register.py`. -/
def holdingRegisters : List RegDef := [
  RegDef.mk "DEVICE_TYPE_CODE" 0 Type'.WORD Scaling.UNIT,
  RegDef.mk "INVERTER_MODULE_H" 1 Type'.DWORD_HIGH Scaling.UNIT,
  RegDef.mk "INVERTER_MODULE_L" 2 Type'.DWORD_LOW Scaling.UNIT,
  RegDef.mk "INPUT_TRACKER_NUM_AND_OUTPUT_PHASE_NUM" 3 Type'.WORD Scaling.UNIT,
  RegDef.mk "REG004" 4 Type'.WORD Scaling.UNIT,
  RegDef.mk "REG005" 5 Type'.WORD Scaling.UNIT,
  RegDef.mk "REG006" 6 Type'.WORD Scaling.UNIT,
  RegDef.mk "REG007" 7 Type'.WORD Scaling.UNIT,
  RegDef.mk "BATTERY_SERIAL_NUMBER_5" 8 Type'.ASCII Scaling.UNIT,
  RegDef.mk "BATTERY_SERIAL_NUMBER_4" 9 Type'.ASCII Scaling.UNIT,
  RegDef.mk "BATTERY_SERIAL_NUMBER_3" 10 Type'.ASCII Scaling.UNIT,
  RegDef.mk "BATTERY_SERIAL_NUMBER_2" 11 Type'.ASCII Scaling.UNIT,
  RegDef.mk "BATTERY_SERIAL_NUMBER_1" 12 Type'.ASCII Scaling.UNIT,
  RegDef.mk "INVERTER_SERIAL_NUMBER_5" 13 Type'.ASCII Scaling.UNIT,
  RegDef.mk "INVERTER_SERIAL_NUMBER_4" 14 Type'.ASCII Scaling.UNIT,
  RegDef.mk "INVERTER_SERIAL_NUMBER_3" 15 Type'.ASCII Scaling.UNIT,
  RegDef.mk "INVERTER_SERIAL_NUMBER_2" 16 Type'.ASCII Scaling.UNIT,
  RegDef.mk "INVERTER_SERIAL_NUMBER_1" 17 Type'.ASCII Scaling.UNIT,
  RegDef.mk "BATTERY_FIRMWARE_VERSION" 18 Type'.WORD Scaling.UNIT,
  RegDef.mk "DSP_FIRMWARE_VERSION" 19 Type'.WORD Scaling.UNIT,
  RegDef.mk "WINTER_MODE" 20 Type'.BOOL Scaling.UNIT,
  RegDef.mk "ARM_FIRMWARE_VERSION" 21 Type'.WORD Scaling.UNIT,
  RegDef.mk "WIFI_OR_U_DISK" 22 Type'.WORD Scaling.UNIT,
  RegDef.mk "SELECT_DSP_OR_ARM" 23 Type'.WORD Scaling.UNIT,
  RegDef.mk "SET_VARIABLE_ADDRESS" 24 Type'.WORD Scaling.UNIT,
  RegDef.mk "SET_VARIABLE_VALUE" 25 Type'.WORD Scaling.UNIT,
  RegDef.mk "GRID_PORT_MAX_OUTPUT_POWER" 26 Type'.WORD Scaling.UNIT,
  RegDef.mk "BATTERY_POWER_MODE" 27 Type'.BOOL Scaling.UNIT,
  RegDef.mk "FRE_MODE" 28 Type'.WORD Scaling.UNIT,
  RegDef.mk "SOC_FORCE_ADJUST" 29 Type'.WORD Scaling.UNIT,
  RegDef.mk "COMMUNICATE_ADDRESS" 30 Type'.WORD Scaling.UNIT,
  RegDef.mk "CHARGE_SLOT_2_START" 31 Type'.WORD Scaling.UNIT,
  RegDef.mk "CHARGE_SLOT_2_END" 32 Type'.WORD Scaling.UNIT,
  RegDef.mk "USER_CODE" 33 Type'.WORD Scaling.UNIT,
  RegDef.mk "MODBUS_VERSION" 34 Type'.WORD Scaling.CENTI,
  RegDef.mk "SYSTEM_TIME_YEAR" 35 Type'.WORD Scaling.UNIT,
  RegDef.mk "SYSTEM_TIME_MONTH" 36 Type'.WORD Scaling.UNIT,
  RegDef.mk "SYSTEM_TIME_DAY" 37 Type'.WORD Scaling.UNIT,
  RegDef.mk "SYSTEM_TIME_HOUR" 38 Type'.WORD Scaling.UNIT,
  RegDef.mk "SYSTEM_TIME_MINUTE" 39 Type'.WORD Scaling.UNIT,
  RegDef.mk "SYSTEM_TIME_SECOND" 40 Type'.WORD Scaling.UNIT,
  RegDef.mk "DRM_ENABLE" 41 Type'.BOOL Scaling.UNIT,
  RegDef.mk "CT_ADJUST" 42 Type'.WORD Scaling.UNIT,
  RegDef.mk "CHARGE_AND_DISCHARGE_SOC" 43 Type'.WORD Scaling.UNIT,
  RegDef.mk "DISCHARGE_SLOT_2_START" 44 Type'.WORD Scaling.UNIT,
  RegDef.mk "DISCHARGE_SLOT_2_END" 45 Type'.WORD Scaling.UNIT,
  RegDef.mk "BMS_VERSION" 46 Type'.WORD Scaling.UNIT,
  RegDef.mk "B_METER_TYPE" 47 Type'.WORD Scaling.UNIT,
  RegDef.mk "B_115_METER_DIRECT" 48 Type'.WORD Scaling.UNIT,
  RegDef.mk "B_418_METER_DIRECT" 49 Type'.WORD Scaling.UNIT,
  RegDef.mk "ACTIVE_P_RATE" 50 Type'.WORD Scaling.UNIT,
  RegDef.mk "REACTIVE_P_RATE" 51 Type'.WORD Scaling.UNIT,
  RegDef.mk "POWER_FACTOR" 52 Type'.WORD Scaling.UNIT,
  RegDef.mk "INVERTER_STATE" 53 Type'.WORD Scaling.UNIT,
  RegDef.mk "BATTERY_TYPE" 54 Type'.WORD Scaling.UNIT,
  RegDef.mk "BATTERY_NOMINAL_CAPACITY" 55 Type'.WORD Scaling.UNIT,
  RegDef.mk "DISCHARGE_SLOT_1_START" 56 Type'.WORD Scaling.UNIT,
  RegDef.mk "DISCHARGE_SLOT_1_END" 57 Type'.WORD Scaling.UNIT,
  RegDef.mk "AUTO_JUDGE_BATTERY_TYPE_ENABLE" 58 Type'.WORD Scaling.UNIT,
  RegDef.mk "DISCHARGE_ENABLE" 59 Type'.BOOL Scaling.UNIT,
  RegDef.mk "INPUT_START_VOLTAGE" 60 Type'.WORD Scaling.UNIT,
  RegDef.mk "START_TIME" 61 Type'.WORD Scaling.UNIT,
  RegDef.mk "RESTART_DELAY_TIME" 62 Type'.WORD Scaling.UNIT,
  RegDef.mk "V_AC_LOW_OUT" 63 Type'.WORD Scaling.DECI,
  RegDef.mk "V_AC_HIGH_OUT" 64 Type'.WORD Scaling.DECI,
  RegDef.mk "F_AC_LOW_OUT" 65 Type'.WORD Scaling.CENTI,
  RegDef.mk "F_AC_HIGH_OUT" 66 Type'.WORD Scaling.CENTI,
  RegDef.mk "V_AC_LOW_OUT_TIME" 67 Type'.WORD Scaling.UNIT,
  RegDef.mk "V_AC_HIGH_OUT_TIME" 68 Type'.WORD Scaling.UNIT,
  RegDef.mk "F_AC_LOW_OUT_TIME" 69 Type'.WORD Scaling.UNIT,
  RegDef.mk "F_AC_HIGH_OUT_TIME" 70 Type'.WORD Scaling.UNIT,
  RegDef.mk "V_AC_LOW_IN" 71 Type'.WORD Scaling.DECI,
  RegDef.mk "V_AC_HIGH_IN" 72 Type'.WORD Scaling.DECI,
  RegDef.mk "F_AC_LOW_IN" 73 Type'.WORD Scaling.CENTI,
  RegDef.mk "F_AC_HIGH_IN" 74 Type'.WORD Scaling.CENTI,
  RegDef.mk "V_AC_LOW_IN_TIME" 75 Type'.WORD Scaling.UNIT,
  RegDef.mk "V_AC_HIGH_IN_TIME" 76 Type'.WORD Scaling.UNIT,
  RegDef.mk "F_AC_LOW_TIME_IN" 77 Type'.WORD Scaling.UNIT,
  RegDef.mk "F_AC_HIGH_TIME_IN" 78 Type'.WORD Scaling.UNIT,
  RegDef.mk "V_AC_LOW_C" 79 Type'.WORD Scaling.DECI,
  RegDef.mk "V_AC_HIGH_C" 80 Type'.WORD Scaling.DECI,
  RegDef.mk "F_AC_LOW_C" 81 Type'.WORD Scaling.CENTI,
  RegDef.mk "F_AC_HIGH_C" 82 Type'.WORD Scaling.CENTI,
  RegDef.mk "U_10_MIN" 83 Type'.WORD Scaling.UNIT,
  RegDef.mk "ISO1" 84 Type'.WORD Scaling.UNIT,
  RegDef.mk "ISO2" 85 Type'.WORD Scaling.UNIT,
  RegDef.mk "GFCI_I_1" 86 Type'.WORD Scaling.UNIT,
  RegDef.mk "GFCI_TIME_1" 87 Type'.WORD Scaling.UNIT,
  RegDef.mk "GFCI_I_2" 88 Type'.WORD Scaling.UNIT,
  RegDef.mk "GFCI_TIME_2" 89 Type'.WORD Scaling.UNIT,
  RegDef.mk "DCI_I_1" 90 Type'.WORD Scaling.UNIT,
  RegDef.mk "DCI_TIME_1" 91 Type'.WORD Scaling.UNIT,
  RegDef.mk "DCI_I_2" 92 Type'.WORD Scaling.UNIT,
  RegDef.mk "DCI_TIME_2" 93 Type'.WORD Scaling.UNIT,
  RegDef.mk "CHARGE_SLOT_1_START" 94 Type'.WORD Scaling.UNIT,
  RegDef.mk "CHARGE_SLOT_1_END" 95 Type'.WORD Scaling.UNIT,
  RegDef.mk "BATTERY_SMART_CHARGE" 96 Type'.BOOL Scaling.UNIT,
  RegDef.mk "DISCHARGE_LOW_LIMIT" 97 Type'.WORD Scaling.UNIT,
  RegDef.mk "CHARGER_HIGH_LIMIT" 98 Type'.WORD Scaling.UNIT,
  RegDef.mk "PV1_VOLT_ADJUST" 99 Type'.WORD Scaling.UNIT,
  RegDef.mk "PV2_VOLT_ADJUST" 100 Type'.WORD Scaling.UNIT,
  RegDef.mk "GRID_R_VOLT_ADJUST" 101 Type'.WORD Scaling.UNIT,
  RegDef.mk "GRID_S_VOLT_ADJUST" 102 Type'.WORD Scaling.UNIT,
  RegDef.mk "GRID_T_VOLT_ADJUST" 103 Type'.WORD Scaling.UNIT,
  RegDef.mk "GRID_POWER_ADJUST" 104 Type'.WORD Scaling.UNIT,
  RegDef.mk "BATTERY_VOLT_ADJUST" 105 Type'.WORD Scaling.UNIT,
  RegDef.mk "PV1_POWER_ADJUST" 106 Type'.WORD Scaling.UNIT,
  RegDef.mk "PV2_POWER_ADJUST" 107 Type'.WORD Scaling.UNIT,
  RegDef.mk "BATTERY_LOW_FORCE_CHARGE_TIME" 108 Type'.WORD Scaling.UNIT,
  RegDef.mk "BMS_TYPE" 109 Type'.WORD Scaling.UNIT,
  RegDef.mk "SHALLOW_CHARGE" 110 Type'.WORD Scaling.UNIT,
  RegDef.mk "BATTERY_CHARGE_LIMIT" 111 Type'.WORD Scaling.UNIT,
  RegDef.mk "BATTERY_DISCHARGE_LIMIT" 112 Type'.WORD Scaling.UNIT,
  RegDef.mk "BUZZER_SW" 113 Type'.WORD Scaling.UNIT,
  RegDef.mk "BATTERY_POWER_RESERVE" 114 Type'.WORD Scaling.UNIT,
  RegDef.mk "ISLAND_CHECK_CONTINUE" 115 Type'.WORD Scaling.UNIT,
  RegDef.mk "TARGET_SOC" 116 Type'.WORD Scaling.UNIT,
  RegDef.mk "CHG_SOC_STOP2" 117 Type'.WORD Scaling.UNIT,
  RegDef.mk "DISCHARGE_SOC_STOP2" 118 Type'.WORD Scaling.UNIT,
  RegDef.mk "CHG_SOC_STOP" 119 Type'.WORD Scaling.UNIT,
  RegDef.mk "DISCHARGE_SOC_STOP" 120 Type'.WORD Scaling.UNIT
]

/-- Embeds the `InputRegister` definition table of `model/register.py`. -/
def inputRegisters : List RegDef := [
  RegDef.mk "INVERTER_STATUS" 0 Type'.WORD Scaling.UNIT,
  RegDef.mk "V_PV1" 1 Type'.WORD Scaling.DECI,
  RegDef.mk "V_PV2" 2 Type'.WORD Scaling.DECI,
  RegDef.mk "P_BUS_INSIDE_VOLTAGE" 3 Type'.WORD Scaling.DECI,
  RegDef.mk "N_BUS_INSIDE_VOLTAGE" 4 Type'.WORD Scaling.DECI,
  RegDef.mk "V_SINGLE_PHASE_GRID" 5 Type'.WORD Scaling.DECI,
  RegDef.mk "E_BATTERY_THROUGHPUT_H" 6 Type'.DWORD_HIGH Scaling.DECI,
  RegDef.mk "E_BATTERY_THROUGHPUT_L" 7 Type'.DWORD_LOW Scaling.DECI,
  RegDef.mk "I_PV1_INPUT" 8 Type'.WORD Scaling.CENTI,
  RegDef.mk "I_PV2_INPUT" 9 Type'.WORD Scaling.CENTI,
  RegDef.mk "I_GRID_OUTPUT_SINGLE_PHASE" 10 Type'.WORD Scaling.CENTI,
  RegDef.mk "PV_TOTAL_GENERATING_CAPACITY_H" 11 Type'.DWORD_HIGH Scaling.DECI,
  RegDef.mk "PV_TOTAL_GENERATING_CAPACITY_L" 12 Type'.DWORD_LOW Scaling.DECI,
  RegDef.mk "F_GRID_THREE_SINGLE_PHASE" 13 Type'.WORD Scaling.CENTI,
  RegDef.mk "CHARGE_STATUS" 14 Type'.WORD Scaling.UNIT,
  RegDef.mk "V_HIGHBRIGH_BUS" 15 Type'.WORD Scaling.UNIT,
  RegDef.mk "PF_INVERTER_OUTPUT_NOW" 16 Type'.WORD Scaling.UNIT,
  RegDef.mk "E_PV1_DAY" 17 Type'.WORD Scaling.DECI,
  RegDef.mk "P_PV1_INPUT" 18 Type'.WORD Scaling.UNIT,
  RegDef.mk "E_PV2_DAY" 19 Type'.WORD Scaling.DECI,
  RegDef.mk "P_PV2_INPUT" 20 Type'.WORD Scaling.UNIT,
  RegDef.mk "E_GRID_OUT_TOTAL_H" 21 Type'.DWORD_HIGH Scaling.DECI,
  RegDef.mk "E_GRID_OUT_TOTAL_L" 22 Type'.DWORD_LOW Scaling.DECI,
  RegDef.mk "PV_MATE" 23 Type'.WORD Scaling.DECI,
  RegDef.mk "P_GRID_THREE_SINGLE_PHASE_OUTPUT_L" 24 Type'.SWORD Scaling.UNIT,
  RegDef.mk "E_GRID_OUT_DAY" 25 Type'.WORD Scaling.DECI,
  RegDef.mk "E_GRID_IN_DAY" 26 Type'.WORD Scaling.DECI,
  RegDef.mk "E_INVERTER_IN_TOTAL_H" 27 Type'.DWORD_HIGH Scaling.DECI,
  RegDef.mk "E_INVERTER_IN_TOTAL_L" 28 Type'.DWORD_LOW Scaling.DECI,
  RegDef.mk "E_DISCHARGE_YEAR_L" 29 Type'.WORD Scaling.DECI,
  RegDef.mk "P_GRID_OUTPUT" 30 Type'.SWORD Scaling.UNIT,
  RegDef.mk "P_BACKUP" 31 Type'.WORD Scaling.UNIT,
  RegDef.mk "P_GRID_IN_TOTAL_H" 32 Type'.DWORD_HIGH Scaling.DECI,
  RegDef.mk "P_GRID_IN_TOTAL_L" 33 Type'.DWORD_LOW Scaling.DECI,
  RegDef.mk "REG034" 34 Type'.WORD Scaling.UNIT,
  RegDef.mk "E_TOTAL_LOAD_DAY" 35 Type'.WORD Scaling.DECI,
  RegDef.mk "E_BATTERY_CHARGE_DAY" 36 Type'.WORD Scaling.DECI,
  RegDef.mk "E_BATTERY_DISCHARGE_DAY" 37 Type'.WORD Scaling.DECI,
  RegDef.mk "P_COUNTDOWN" 38 Type'.WORD Scaling.UNIT,
  RegDef.mk "FAULT_CODE_H" 39 Type'.DWORD_HIGH Scaling.UNIT,
  RegDef.mk "FAULT_CODE_L" 40 Type'.DWORD_LOW Scaling.UNIT,
  RegDef.mk "TEMP_INV" 41 Type'.WORD Scaling.DECI,
  RegDef.mk "P_LOAD_TOTAL" 42 Type'.WORD Scaling.UNIT,
  RegDef.mk "P_GRID_APPARENT" 43 Type'.WORD Scaling.UNIT,
  RegDef.mk "E_GENERATED_DAY" 44 Type'.WORD Scaling.DECI,
  RegDef.mk "E_GENERATED_H" 45 Type'.DWORD_HIGH Scaling.DECI,
  RegDef.mk "E_GENERATED_L" 46 Type'.DWORD_LOW Scaling.DECI,
  RegDef.mk "WORK_TIME_TOTAL_H" 47 Type'.DWORD_HIGH Scaling.UNIT,
  RegDef.mk "WORK_TIME_TOTAL_L" 48 Type'.DWORD_LOW Scaling.UNIT,
  RegDef.mk "SYSTEM_MODE" 49 Type'.WORD Scaling.UNIT,
  RegDef.mk "V_BAT" 50 Type'.WORD Scaling.CENTI,
  RegDef.mk "I_BAT" 51 Type'.SWORD Scaling.CENTI,
  RegDef.mk "P_BAT" 52 Type'.SWORD Scaling.UNIT,
  RegDef.mk "V_OUTPUT" 53 Type'.WORD Scaling.DECI,
  RegDef.mk "F_OUTPUT" 54 Type'.WORD Scaling.CENTI,
  RegDef.mk "TEMP_CHARGER" 55 Type'.WORD Scaling.DECI,
  RegDef.mk "TEMP_BAT" 56 Type'.WORD Scaling.DECI,
  RegDef.mk "CHARGER_WARNING_CODE" 57 Type'.WORD Scaling.UNIT,
  RegDef.mk "P_GRID_PORT" 58 Type'.WORD Scaling.CENTI,
  RegDef.mk "BATTERY_PERCENT" 59 Type'.WORD Scaling.UNIT,
  RegDef.mk "REG060" 60 Type'.WORD Scaling.UNIT,
  RegDef.mk "REG061" 61 Type'.WORD Scaling.UNIT,
  RegDef.mk "REG062" 62 Type'.WORD Scaling.UNIT,
  RegDef.mk "REG063" 63 Type'.WORD Scaling.UNIT,
  RegDef.mk "REG064" 64 Type'.WORD Scaling.UNIT,
  RegDef.mk "REG065" 65 Type'.WORD Scaling.UNIT,
  RegDef.mk "REG066" 66 Type'.WORD Scaling.UNIT,
  RegDef.mk "REG067" 67 Type'.WORD Scaling.UNIT,
  RegDef.mk "REG068" 68 Type'.WORD Scaling.UNIT,
  RegDef.mk "REG069" 69 Type'.WORD Scaling.UNIT,
  RegDef.mk "REG070" 70 Type'.WORD Scaling.UNIT,
  RegDef.mk "REG071" 71 Type'.WORD Scaling.UNIT,
  RegDef.mk "REG072" 72 Type'.WORD Scaling.UNIT,
  RegDef.mk "REG073" 73 Type'.WORD Scaling.UNIT,
  RegDef.mk "REG074" 74 Type'.WORD Scaling.UNIT,
  RegDef.mk "REG075" 75 Type'.WORD Scaling.UNIT,
  RegDef.mk "REG076" 76 Type'.WORD Scaling.UNIT,
  RegDef.mk "REG077" 77 Type'.WORD Scaling.UNIT,
  RegDef.mk "REG078" 78 Type'.WORD Scaling.UNIT,
  RegDef.mk "REG079" 79 Type'.WORD Scaling.UNIT,
  RegDef.mk "REG080" 80 Type'.WORD Scaling.UNIT,
  RegDef.mk "REG081" 81 Type'.WORD Scaling.UNIT,
  RegDef.mk "REG082" 82 Type'.WORD Scaling.UNIT,
  RegDef.mk "REG083" 83 Type'.WORD Scaling.UNIT,
  RegDef.mk "REG084" 84 Type'.WORD Scaling.UNIT,
  RegDef.mk "REG085" 85 Type'.WORD Scaling.UNIT,
  RegDef.mk "REG086" 86 Type'.WORD Scaling.UNIT,
  RegDef.mk "REG087" 87 Type'.WORD Scaling.UNIT,
  RegDef.mk "REG088" 88 Type'.WORD Scaling.UNIT,
  RegDef.mk "REG089" 89 Type'.WORD Scaling.UNIT,
  RegDef.mk "REG090" 90 Type'.WORD Scaling.UNIT,
  RegDef.mk "REG091" 91 Type'.WORD Scaling.UNIT,
  RegDef.mk "REG092" 92 Type'.WORD Scaling.UNIT,
  RegDef.mk "REG093" 93 Type'.WORD Scaling.UNIT,
  RegDef.mk "REG094" 94 Type'.WORD Scaling.UNIT,
  RegDef.mk "REG095" 95 Type'.WORD Scaling.UNIT,
  RegDef.mk "REG096" 96 Type'.WORD Scaling.UNIT,
  RegDef.mk "REG097" 97 Type'.WORD Scaling.UNIT,
  RegDef.mk "REG098" 98 Type'.WORD Scaling.UNIT,
  RegDef.mk "REG099" 99 Type'.WORD Scaling.UNIT,
  RegDef.mk "REG100" 100 Type'.WORD Scaling.UNIT,
  RegDef.mk "REG101" 101 Type'.WORD Scaling.UNIT,
  RegDef.mk "REG102" 102 Type'.WORD Scaling.UNIT,
  RegDef.mk "REG103" 103 Type'.WORD Scaling.UNIT,
  RegDef.mk "REG104" 104 Type'.WORD Scaling.UNIT,
  RegDef.mk "E_BATTERY_DISCHARGE_AC_TOTAL" 105 Type'.WORD Scaling.DECI,
  RegDef.mk "E_BATTERY_CHARGE_AC_TOTAL" 106 Type'.WORD Scaling.DECI,
  RegDef.mk "REG107" 107 Type'.WORD Scaling.UNIT,
  RegDef.mk "REG108" 108 Type'.WORD Scaling.UNIT,
  RegDef.mk "REG109" 109 Type'.WORD Scaling.UNIT,
  RegDef.mk "BATTERY_SERIAL_NUMBER_5" 110 Type'.ASCII Scaling.UNIT,
  RegDef.mk "BATTERY_SERIAL_NUMBER_4" 111 Type'.ASCII Scaling.UNIT,
  RegDef.mk "BATTERY_SERIAL_NUMBER_3" 112 Type'.ASCII Scaling.UNIT,
  RegDef.mk "BATTERY_SERIAL_NUMBER_2" 113 Type'.ASCII Scaling.UNIT,
  RegDef.mk "BATTERY_SERIAL_NUMBER_1" 114 Type'.ASCII Scaling.UNIT,
  RegDef.mk "REG115" 115 Type'.WORD Scaling.UNIT,
  RegDef.mk "REG116" 116 Type'.WORD Scaling.UNIT,
  RegDef.mk "REG117" 117 Type'.WORD Scaling.UNIT,
  RegDef.mk "REG118" 118 Type'.WORD Scaling.UNIT,
  RegDef.mk "REG119" 119 Type'.WORD Scaling.UNIT,
  RegDef.mk "REG120" 120 Type'.WORD Scaling.UNIT,
  RegDef.mk "REG121" 121 Type'.WORD Scaling.UNIT,
  RegDef.mk "REG122" 122 Type'.WORD Scaling.UNIT,
  RegDef.mk "REG123" 123 Type'.WORD Scaling.UNIT,
  RegDef.mk "REG124" 124 Type'.WORD Scaling.UNIT,
  RegDef.mk "REG125" 125 Type'.WORD Scaling.UNIT,
  RegDef.mk "REG126" 126 Type'.WORD Scaling.UNIT,
  RegDef.mk "REG127" 127 Type'.WORD Scaling.UNIT,
  RegDef.mk "REG128" 128 Type'.WORD Scaling.UNIT,
  RegDef.mk "REG129" 129 Type'.WORD Scaling.UNIT,
  RegDef.mk "REG130" 130 Type'.WORD Scaling.UNIT,
  RegDef.mk "REG131" 131 Type'.WORD Scaling.UNIT,
  RegDef.mk "REG132" 132 Type'.WORD Scaling.UNIT,
  RegDef.mk "REG133" 133 Type'.WORD Scaling.UNIT,
  RegDef.mk "REG134" 134 Type'.WORD Scaling.UNIT,
  RegDef.mk "REG135" 135 Type'.WORD Scaling.UNIT,
  RegDef.mk "REG136" 136 Type'.WORD Scaling.UNIT,
  RegDef.mk "REG137" 137 Type'.WORD Scaling.UNIT,
  RegDef.mk "REG138" 138 Type'.WORD Scaling.UNIT,
  RegDef.mk "REG139" 139 Type'.WORD Scaling.UNIT,
  RegDef.mk "REG140" 140 Type'.WORD Scaling.UNIT,
  RegDef.mk "REG141" 141 Type'.WORD Scaling.UNIT,
  RegDef.mk "REG142" 142 Type'.WORD Scaling.UNIT,
  RegDef.mk "REG143" 143 Type'.WORD Scaling.UNIT,
  RegDef.mk "REG144" 144 Type'.WORD Scaling.UNIT,
  RegDef.mk "REG145" 145 Type'.WORD Scaling.UNIT,
  RegDef.mk "REG146" 146 Type'.WORD Scaling.UNIT,
  RegDef.mk "REG147" 147 Type'.WORD Scaling.UNIT,
  RegDef.mk "REG148" 148 Type'.WORD Scaling.UNIT,
  RegDef.mk "REG149" 149 Type'.WORD Scaling.UNIT,
  RegDef.mk "REG150" 150 Type'.WORD Scaling.UNIT,
  RegDef.mk "REG151" 151 Type'.WORD Scaling.UNIT,
  RegDef.mk "REG152" 152 Type'.WORD Scaling.UNIT,
  RegDef.mk "REG153" 153 Type'.WORD Scaling.UNIT,
  RegDef.mk "REG154" 154 Type'.WORD Scaling.UNIT,
  RegDef.mk "REG155" 155 Type'.WORD Scaling.UNIT,
  RegDef.mk "REG156" 156 Type'.WORD Scaling.UNIT,
  RegDef.mk "REG157" 157 Type'.WORD Scaling.UNIT,
  RegDef.mk "REG158" 158 Type'.WORD Scaling.UNIT,
  RegDef.mk "REG159" 159 Type'.WORD Scaling.UNIT,
  RegDef.mk "REG160" 160 Type'.WORD Scaling.UNIT,
  RegDef.mk "REG161" 161 Type'.WORD Scaling.UNIT,
  RegDef.mk "REG162" 162 Type'.WORD Scaling.UNIT,
  RegDef.mk "REG163" 163 Type'.WORD Scaling.UNIT,
  RegDef.mk "REG164" 164 Type'.WORD Scaling.UNIT,
  RegDef.mk "REG165" 165 Type'.WORD Scaling.UNIT,
  RegDef.mk "REG166" 166 Type'.WORD Scaling.UNIT,
  RegDef.mk "REG167" 167 Type'.WORD Scaling.UNIT,
  RegDef.mk "REG168" 168 Type'.WORD Scaling.UNIT,
  RegDef.mk "REG169" 169 Type'.WORD Scaling.UNIT,
  RegDef.mk "REG170" 170 Type'.WORD Scaling.UNIT,
  RegDef.mk "REG171" 171 Type'.WORD Scaling.UNIT,
  RegDef.mk "REG172" 172 Type'.WORD Scaling.UNIT,
  RegDef.mk "REG173" 173 Type'.WORD Scaling.UNIT,
  RegDef.mk "REG174" 174 Type'.WORD Scaling.UNIT,
  RegDef.mk "REG175" 175 Type'.WORD Scaling.UNIT,
  RegDef.mk "REG176" 176 Type'.WORD Scaling.UNIT,
  RegDef.mk "REG177" 177 Type'.WORD Scaling.UNIT,
  RegDef.mk "REG178" 178 Type'.WORD Scaling.UNIT,
  RegDef.mk "REG179" 179 Type'.WORD Scaling.UNIT,
  RegDef.mk "E_BATTERY_DISCHARGE_TOTAL" 180 Type'.WORD Scaling.DECI,
  RegDef.mk "E_BATTERY_CHARGE_TOTAL" 181 Type'.WORD Scaling.DECI
]

/-! Helper lemmas about decimal printing and parsing. -/

lemma digitChar_isDigit {d : Nat} (h : d < 10) : (digitChar d).isDigit = true := by
  interval_cases d <;> rfl

lemma digitChar_val {d : Nat} (h : d < 10) : (digitChar d).toNat - 48 = d := by
  interval_cases d <;> rfl

lemma printNatBase_zero (b : Nat) (fuel : Nat) : printNatBase b fuel 0 = [] := by
  cases fuel <;> rfl

lemma printNatBase_all_digits (fuel : Nat) : ∀ n, ((printNatBase 10 fuel n).all Char.isDigit) = true := by
  induction fuel with
  | zero => intro n; rfl
  | succ f ih =>
      intro n
      unfold printNatBase
      by_cases h : n = 0
      · simp [h]
      · have hd : n % 10 < 10 := Nat.mod_lt _ (by norm_num)
        simp [h, List.all_append, ih (n / 10), digitChar_isDigit hd]

lemma printNatBase_foldl (fuel : Nat) :
    ∀ n a, n ≤ fuel →
      (printNatBase 10 fuel n).foldl (fun acc c => acc * 10 + (c.toNat - 48)) a
        = if n = 0 then a else a * 10 ^ (printNatBase 10 fuel n).length + n := by
  induction fuel with
  | zero =>
      intro n a hle
      have hn : n = 0 := Nat.le_zero.mp hle
      subst hn
      rfl
  | succ f ih =>
      intro n a hle
      by_cases h : n = 0
      · subst h; rfl
      · have hfuel : n / 10 ≤ f := by
          have : n / 10 < n := Nat.div_lt_self (Nat.pos_of_ne_zero h) (by norm_num)
          omega
        have hd : n % 10 < 10 := Nat.mod_lt _ (by norm_num)
        unfold printNatBase
        simp only [if_neg h]
        rw [List.foldl_append, ih (n / 10) a hfuel]
        by_cases h10 : n / 10 = 0
        · rw [if_pos h10]
          simp only [List.foldl_cons, List.foldl_nil, h10, printNatBase_zero,
            List.nil_append, List.length_cons, List.length_nil, digitChar_val hd]
          have hn10 : n < 10 := by omega
          omega
        · rw [if_neg h10]
          simp only [List.foldl_cons, List.foldl_nil, List.length_append,
            List.length_cons, List.length_nil, digitChar_val hd]
          rw [pow_succ, ← mul_assoc]
          have := Nat.div_add_mod n 10
          set L := (printNatBase 10 f (n / 10)).length
          set M := a * 10 ^ L
          omega

lemma printNatBase_ne_nil {n : Nat} (h : n ≠ 0) : printNatBase 10 n n ≠ [] := by
  obtain ⟨m, rfl⟩ : ∃ m, n = m + 1 := ⟨n - 1, by omega⟩
  unfold printNatBase
  simp

lemma parseDigits_printNat (n : Nat) : parseDigits (printNat n) = some n := by
  by_cases h : n = 0
  · subst h; rfl
  · have hne := printNatBase_ne_nil h
    have hdg := printNatBase_all_digits n n
    unfold printNat parseDigits
    rw [if_neg h]
    have hempty : (printNatBase 10 n n).isEmpty = false := by
      cases hl : printNatBase 10 n n
      · exact absurd hl hne
      · rfl
    rw [if_pos (by simp [hempty, hdg])]
    rw [printNatBase_foldl n n 0 le_rfl, if_neg h]
    simp

/-! Helper lemmas about the association-list dict operations. -/

lemma lookupReg_append_right (c : Cache) (r : Register) (v : Option Nat)
    (h : lookupReg c r = none) : lookupReg (c ++ [(r, v)]) r = some v := by
  induction c with
  | nil => simp [lookupReg]
  | cons p t ih =>
      obtain ⟨a, b⟩ := p
      by_cases har : a = r
      · simp [lookupReg, har] at h
      · simp only [List.cons_append, lookupReg, if_neg har] at h ⊢
        exact ih h

lemma dinsert_eq_append (acc : Cache) (r : Register) (v : Option Nat)
    (h : r ∉ acc.map Prod.fst) : dinsert acc r v = acc ++ [(r, v)] := by
  induction acc with
  | nil => rfl
  | cons p t ih =>
      obtain ⟨a, b⟩ := p
      simp only [List.map_cons, List.mem_cons] at h
      push_neg at h
      unfold dinsert
      rw [if_neg (fun he => h.1 he.symm)]
      simp only [List.cons_append, List.cons.injEq, true_and]
      exact ih h.2

lemma hookAux_regStr_cons (r : Register) (v : Option Nat)
    (rest : List (List Char × Option Nat)) (acc : Cache) :
    RegisterCache.hookAux ((regStr r, v) :: rest) acc
      = RegisterCache.hookAux rest (dinsert acc r v) := by
  cases r with
  | HR n =>
      show RegisterCache.hookAux (('H' :: 'R' :: '(' :: (printNat n ++ [')']), v) :: rest) acc = _
      conv_lhs => unfold RegisterCache.hookAux
      have hfind : pyFind ('H' :: 'R' :: '(' :: (printNat n ++ [')'])) '(' = 2 := rfl
      have hsplit : pySplitOnce ('H' :: 'R' :: '(' :: (printNat n ++ [')'])) '('
          = (['H', 'R'], printNat n ++ [')']) := rfl
      rw [hfind, hsplit]
      simp only [show ((2 : Int) > 0) = True from by simp, if_true]
      rw [List.dropLast_concat]
      rw [parseDigits_printNat n]
  | IR n =>
      show RegisterCache.hookAux (('I' :: 'R' :: '(' :: (printNat n ++ [')']), v) :: rest) acc = _
      conv_lhs => unfold RegisterCache.hookAux
      have hfind : pyFind ('I' :: 'R' :: '(' :: (printNat n ++ [')'])) '(' = 2 := rfl
      have hsplit : pySplitOnce ('I' :: 'R' :: '(' :: (printNat n ++ [')'])) '('
          = (['I', 'R'], printNat n ++ [')']) := rfl
      rw [hfind, hsplit]
      simp only [show ((2 : Int) > 0) = True from by simp, if_true]
      rw [List.dropLast_concat]
      rw [parseDigits_printNat n]
      rfl

lemma hookAux_json (c : Cache) :
    ∀ acc : Cache, (c.map Prod.fst).Nodup →
      (∀ x ∈ c.map Prod.fst, x ∉ acc.map Prod.fst) →
      RegisterCache.hookAux (RegisterCache.json c) acc = .ok (acc ++ c) := by
  induction c with
  | nil =>
      intro acc _ _
      simp [RegisterCache.json, RegisterCache.hookAux]
  | cons p t ih =>
      obtain ⟨r, v⟩ := p
      intro acc hnd hdisj
      have hjson : RegisterCache.json ((r, v) :: t) = (regStr r, v) :: RegisterCache.json t := rfl
      rw [hjson, hookAux_regStr_cons,
        dinsert_eq_append acc r v (hdisj r (by simp))]
      simp only [List.map_cons, List.nodup_cons] at hnd
      have hdisj' : ∀ x ∈ t.map Prod.fst, x ∉ (acc ++ [(r, v)]).map Prod.fst := by
        intro x hx
        simp only [List.map_append, List.mem_append, List.map_cons, List.map_nil,
          List.mem_singleton]
        push_neg
        refine ⟨hdisj x (by simp [hx]), ?_⟩
        intro hxr
        exact hnd.1 (hxr ▸ hx)
      rw [ih (acc ++ [(r, v)]) hnd.2 hdisj']
      simp

lemma and_bit15 (v : Nat) (hv : v < 65536) : (v &&& (1 <<< 15) ≠ 0) ↔ ¬ v < 32768 := by
  have h1 : (1 <<< 15 : Nat) = 2 ^ 15 := by decide
  rw [h1, Nat.and_two_pow, Nat.testBit_to_div_mod]
  by_cases hc : v / 2 ^ 15 % 2 = 1
  · simp [hc]
    omega
  · simp [hc]
    omega

/-! Claim theorems. -/

/-- C1 (code_bug evaluation): on the spec's own failing input — year
register 22, month register 13 (invalid), remaining fields valid —
`to_datetime` does NOT return the year-2000 sentinel: the bare `except`
handler evaluates `datetime.datetime(2000, 0, 0, 0, 0, 0)`, whose month 0
is itself out of range, so a `ValueError` propagates to the caller,
contradicting the claimed never-raises contract (and the function's own
docstring and log message promising a safe zero date). -/
theorem C1_to_datetime_fallback_raises :
    RegisterCache.to_datetime
      [(Register.HR 35, some 22), (Register.HR 36, some 13), (Register.HR 37, some 1),
       (Register.HR 38, some 0), (Register.HR 39, some 0), (Register.HR 40, some 0)]
      (Register.HR 35) (Register.HR 36) (Register.HR 37)
      (Register.HR 38) (Register.HR 39) (Register.HR 40)
      = .error (.valueError ("month must be in 1..12".data)) := rfl

/-- C2 (counterexample): `to_uint32` on an empty cache does not fail with
a `MissingRegister` error naming the offending identity — no such error
exists; it raises the interpreter's generic `TypeError` for
`None << int`, and the error is byte-identical for different register
identities, so it cannot name the offending one. -/
theorem C2_counterexample :
    RegisterCache.to_uint32 [] (Register.HR 1) (Register.HR 2)
      = .error (.typeError ("unsupported operand type(s) for <<: 'NoneType' and 'int'".data)) ∧
    RegisterCache.to_uint32 [] (Register.IR 7) (Register.IR 8)
      = .error (.typeError ("unsupported operand type(s) for <<: 'NoneType' and 'int'".data)) :=
  ⟨rfl, rfl⟩

/-- C2 (amended): on an empty cache every identity is absent (`get`
returns the Absent marker, never zero), and `to_uint32` with an absent
required identity fails — but with the generic `TypeError` raised by
shifting the `None` marker, identical for all identities, not a
`MissingRegister` error naming the offending identity. -/
theorem C2_amended :
    ∀ r : Register, lookupReg ([] : Cache) r = none ∧ dictGetD [] r none = none ∧
      ∀ h l : Register, RegisterCache.to_uint32 [] h l
        = .error (.typeError ("unsupported operand type(s) for <<: 'NoneType' and 'int'".data)) :=
  fun _ => ⟨rfl, rfl, fun _ _ => rfl⟩

/-- C4 (counterexample): `render` is not total over all uint16 raw values
for `Ascii`: raw 128 has low byte `0x80`, which `bytes.decode('ascii')`
rejects, so an exception is raised instead of a two-character string. -/
theorem C4_counterexample :
    Type'.render Type'.ASCII 128 1
      = .error (.unicodeDecodeError ("ordinal not in range(128)".data)) := rfl

/-- C4 (amended): for every scaling factor and raw value below 2^16,
`render` succeeds for every DataKind except `Ascii`; for `Ascii` it
returns the two-character string formed from the raw word's two bytes
(most significant first) exactly when both bytes are below 128, and
raises `UnicodeDecodeError` when either byte is 128 or more (so it is
not total on non-ASCII bytes). -/
theorem C4_amended :
    ∀ (sc : ℚ) (v : Nat), v < 65536 →
      (∀ t : Type', t ≠ Type'.ASCII → ∃ val, Type'.render t v sc = .ok val) ∧
      (v / 256 < 128 ∧ v % 256 < 128 →
        Type'.render Type'.ASCII v sc
          = .ok (.str [Char.ofNat (v / 256), Char.ofNat (v % 256)])) ∧
      (¬ (v / 256 < 128 ∧ v % 256 < 128) →
        Type'.render Type'.ASCII v sc
          = .error (.unicodeDecodeError ("ordinal not in range(128)".data))) := by
  intro sc v hv
  refine ⟨?_, ?_, ?_⟩
  · intro t ht
    cases t with
    | BOOL => exact ⟨_, rfl⟩
    | WORD => exact ⟨_, rfl⟩
    | DWORD_HIGH => exact ⟨_, rfl⟩
    | DWORD_LOW => exact ⟨_, rfl⟩
    | SWORD => exact ⟨_, rfl⟩
    | ASCII => exact absurd rfl ht
  · intro hb
    show (if v < 65536 then _ else _) = _
    rw [if_pos hv, if_pos hb]
  · intro hb
    show (if v < 65536 then _ else _) = _
    rw [if_pos hv, if_neg hb]

/-- C4 (witness): at raw 16706 = 0x4142 the amended theorem yields the
string of the two bytes `A` then `B`. -/
theorem C4_witness :
    (16706 < 65536) ∧
    Type'.render Type'.ASCII 16706 1 = .ok (.str ['A', 'B']) := by
  refine ⟨by decide, ?_⟩
  have h1 := (C4_amended 1 16706 (by decide)).2.1 (by decide)
  rw [h1]

lemma printNatBase_self_ne_nil {b n : Nat} (h : n ≠ 0) : printNatBase b n n ≠ [] := by
  obtain ⟨m, rfl⟩ : ∃ m, n = m + 1 := ⟨n - 1, by omega⟩
  unfold printNatBase
  simp

lemma hex4_ne_nil (n : Nat) : hex4 n ≠ [] := by
  unfold hex4
  intro hc
  rw [List.append_eq_nil] at hc
  by_cases h : n = 0
  · rw [if_pos h] at hc
    exact absurd hc.2 (by simp)
  · rw [if_neg h] at hc
    exact printNatBase_self_ne_nil h hc.2

lemma formatRegs_of_present (c : Cache) :
    ∀ rs : List Register, (∀ r ∈ rs, (subVal c r).isSome = true) →
      RegisterCache.formatRegs c rs = .ok (rs.map (fun r => hex4 ((subVal c r).getD 0))) := by
  intro rs
  induction rs with
  | nil => intro _; rfl
  | cons r t ih =>
      intro hp
      have hr := hp r (by simp)
      obtain ⟨vr, hvr⟩ := Option.isSome_iff_exists.mp hr
      unfold RegisterCache.formatRegs
      rw [hvr, ih (fun x hx => hp x (by simp [hx])), List.map_cons, hvr]
      rfl

/-- C3: deserializing the serialization of a cache (all of whose keys
serialize through the canonical `(`-wrapped form, as every identity does)
reproduces exactly the same identity-to-value pairs, provided the cache's
keys are distinct (as they are in a real dict). -/
theorem C3_roundtrip :
    ∀ c : Cache, (c.map Prod.fst).Nodup →
      RegisterCache.from_json (RegisterCache.json c) = .ok c := by
  intro c h
  have hmain := hookAux_json c [] h (by simp)
  simpa [RegisterCache.from_json, RegisterCache.register_object_hook] using hmain

/-- C3 (witness): the round trip at a concrete two-entry cache. -/
theorem C3_witness :
    ((([(Register.HR 13, some 257), (Register.IR 0, some 65535)] : Cache).map Prod.fst).Nodup) ∧
    RegisterCache.from_json
        (RegisterCache.json [(Register.HR 13, some 257), (Register.IR 0, some 65535)])
      = .ok [(Register.HR 13, some 257), (Register.IR 0, some 65535)] :=
  ⟨by decide, C3_roundtrip _ (by decide)⟩

/-- C5 (counterexample): `to_hex_string` over one register holding raw 0
yields `"0000"`, not the empty string: the guard `all(values)` is applied
to the *formatted* strings, and `f"\x7b0:04x\x7d"` is the truthy string
`"0000"`. -/
theorem C5_counterexample :
    RegisterCache.to_hex_string [(Register.HR 13, some 0)] [Register.HR 13]
      = .ok ("0000".data) ∧ "0000".data ≠ ("".data : List Char) :=
  ⟨rfl, by decide⟩

/-- C5 (amended): when every listed register is present, the formatted
4-hex-digit strings are never empty, so the falsy-guard branch never
fires and `to_hex_string` always returns the upper-cased concatenation of
the 4-hex-digit renders with non-alphanumerics stripped (a no-op on hex
digits); in particular raw 0 gives `"0000"` and raw 255 gives `"00FF"`. -/
theorem C5_amended :
    ∀ (c : Cache) (rs : List Register), (∀ r ∈ rs, (subVal c r).isSome = true) →
      RegisterCache.to_hex_string c rs
        = .ok ((((rs.map (fun r => hex4 ((subVal c r).getD 0))).flatten).filter
            Char.isAlphanum).map Char.toUpper) := by
  intro c rs hp
  have hall : ((rs.map (fun r => hex4 ((subVal c r).getD 0))).all
      (fun s => !s.isEmpty)) = true := by
    rw [List.all_eq_true]
    intro s hs
    obtain ⟨r, _, rfl⟩ := List.mem_map.mp hs
    cases hl : hex4 ((subVal c r).getD 0) with
    | nil => exact absurd hl (hex4_ne_nil _)
    | cons a l => simp
  unfold RegisterCache.to_hex_string
  rw [formatRegs_of_present c rs hp]
  show (if ((rs.map (fun r => hex4 ((subVal c r).getD 0))).all (fun s => !s.isEmpty)) = true then
      Except.ok ((((rs.map (fun r => hex4 ((subVal c r).getD 0))).flatten).filter
        Char.isAlphanum).map Char.toUpper)
    else Except.ok ([] : List Char)) = _
  rw [if_pos hall]

/-- C5 (witness): the amended theorem at one register holding 255 yields
`"00FF"`. -/
theorem C5_witness :
    (∀ r ∈ [Register.HR 13], (subVal [(Register.HR 13, some 255)] r).isSome = true) ∧
    RegisterCache.to_hex_string [(Register.HR 13, some 255)] [Register.HR 13]
      = .ok ("00FF".data) := by
  refine ⟨by decide, ?_⟩
  have h1 := C5_amended [(Register.HR 13, some 255)] [Register.HR 13] (by decide)
  rw [h1]
  rfl

/-- C6: during deserialization, a key with an unrecognized bank
abbreviation (`"XX(5)"`) fails the whole parse — the `lookup[reg]`
`KeyError` (the spec's `MalformedKey`) is not caught — while a key whose
offset does not parse as an integer (`"HR(abc)"`) is silently discarded
and parsing continues with the remaining entries. -/
theorem C6_malformed_vs_discard :
    (∀ (v : Option Nat) (rest : List (List Char × Option Nat)),
      RegisterCache.register_object_hook (("XX(5)".data, v) :: rest)
        = .error (.keyError ("XX".data))) ∧
    (∀ (v : Option Nat) (rest : List (List Char × Option Nat)),
      RegisterCache.register_object_hook (("HR(abc)".data, v) :: rest)
        = RegisterCache.register_object_hook rest) :=
  ⟨fun _ _ => rfl, fun _ _ => rfl⟩

/-- C7: for every raw 16-bit value, `render` on `SWORD` decodes the
two's-complement 16-bit signed value (the value itself below 32768, else
the value minus 65536) and multiplies the signed result by the scaling
factor. -/
theorem C7_sword_render :
    ∀ v : Nat, v < 65536 → ∀ sc : ℚ,
      Type'.render Type'.SWORD v sc
        = .ok (.num ((((if v < 32768 then (v : ℤ) else (v : ℤ) - 65536) : ℤ) : ℚ) * sc)) := by
  intro v hv sc
  have h16 : ((1 <<< 16 : ℤ)) = 65536 := by decide
  show Except.ok (PyValue.num
      ((((if v &&& (1 <<< 15) ≠ 0 then (v : ℤ) - (1 <<< 16) else (v : ℤ)) : ℤ) : ℚ) * sc)) = _
  rw [h16]
  by_cases hb : v < 32768
  · rw [if_neg (fun hcon => ((and_bit15 v hv).mp hcon) hb), if_pos hb]
  · rw [if_pos ((and_bit15 v hv).mpr hb), if_neg hb]

/-- C7 (witness): raw 40000 with unit scaling renders to -25536. -/
theorem C7_witness :
    (40000 < 65536) ∧
    Type'.render Type'.SWORD 40000 1 = .ok (.num (-25536)) := by
  refine ⟨by decide, ?_⟩
  have h := C7_sword_render 40000 (by decide) 1
  rw [h]
  norm_num

/-- C8: for every pair of present registers, `to_uint32` returns exactly
`(raw(high) << 16) + raw(low)`, computed directly on the raw words with
no DataKind or ScalingFactor applied. -/
theorem C8_to_uint32_formula :
    ∀ (c : Cache) (h l : Register) (vh vl : Nat),
      subVal c h = some vh → subVal c l = some vl →
      RegisterCache.to_uint32 c h l = .ok ((vh <<< 16) + vl) := by
  intro c h l vh vl hh hl
  unfold RegisterCache.to_uint32
  rw [hh, hl]

/-- C8 (witness): with raw words high = 0x0001 and low = 0x0002 the
result is 65538. -/
theorem C8_witness :
    subVal [(Register.HR 1, some 1), (Register.HR 2, some 2)] (Register.HR 1) = some 1 ∧
    subVal [(Register.HR 1, some 1), (Register.HR 2, some 2)] (Register.HR 2) = some 2 ∧
    RegisterCache.to_uint32 [(Register.HR 1, some 1), (Register.HR 2, some 2)]
      (Register.HR 1) (Register.HR 2) = .ok 65538 := by
  refine ⟨rfl, rfl, ?_⟩
  have h := C8_to_uint32_formula [(Register.HR 1, some 1), (Register.HR 2, some 2)]
    (Register.HR 1) (Register.HR 2) 1 2 rfl rfl
  rw [h]
  rfl

/-- C9: a defaultdict subscript lookup of an absent register is not
side-effect-free: it returns the null marker and inserts the entry
`(r, None)` into the dict, after which the key is no longer absent — the
inserted entry is observed by subsequent lookups and appears in the
serialization. -/
theorem C9_subscript_inserts :
    ∀ (c : Cache) (r : Register), lookupReg c r = none →
      RegisterCache.getItem c r = (none, c ++ [(r, none)]) ∧
      lookupReg (RegisterCache.getItem c r).2 r = some none ∧
      RegisterCache.json (RegisterCache.getItem c r).2
        = RegisterCache.json c ++ [(regStr r, none)] := by
  intro c r habs
  have h1 : RegisterCache.getItem c r = (none, c ++ [(r, none)]) := by
    unfold RegisterCache.getItem
    rw [habs]
  refine ⟨h1, ?_, ?_⟩
  · rw [h1]
    exact lookupReg_append_right c r none habs
  · rw [h1]
    simp [RegisterCache.json]

/-- C9 (witness): poking an absent register on the empty cache inserts
the null-marker entry. -/
theorem C9_witness :
    lookupReg ([] : Cache) (Register.HR 13) = none ∧
    RegisterCache.getItem [] (Register.HR 13) = (none, [] ++ [(Register.HR 13, none)]) :=
  ⟨rfl, (C9_subscript_inserts [] (Register.HR 13) rfl).1⟩

/-- Pairing discipline of double-word registers in a definition table:
every DWORD_HIGH at offset n has a DWORD_LOW at offset n+1 with the same
scaling, and every DWORD_LOW at offset n has a DWORD_HIGH at offset n-1
with the same scaling. -/
def dwordPaired (tbl : List RegDef) : Prop :=
  (∀ e ∈ tbl, e.rtype = Type'.DWORD_HIGH →
    ∃ e2 ∈ tbl, e2.offset = e.offset + 1 ∧ e2.rtype = Type'.DWORD_LOW ∧ e2.scaling = e.scaling) ∧
  (∀ e ∈ tbl, e.rtype = Type'.DWORD_LOW →
    ∃ e2 ∈ tbl, e2.offset + 1 = e.offset ∧ e2.rtype = Type'.DWORD_HIGH ∧ e2.scaling = e.scaling)

set_option maxRecDepth 100000

/-- C10: in both static register definition tables every DWORD_HIGH
register at offset n is immediately followed (offset n+1) by a DWORD_LOW
register with the same scaling factor, and every DWORD_LOW register is
immediately preceded (offset n-1) by a DWORD_HIGH register with the same
scaling factor. -/
theorem C10_dword_pairing : dwordPaired holdingRegisters ∧ dwordPaired inputRegisters := by
  constructor <;> constructor <;> decide
